import Mathlib

/-!
# Verification of the apt-hunter scraping pipeline

A shallow embedding in Lean 4 of the Python scripts
`apt_hunter/apt_hunter.py` and `apt_bot/apt_bot.py` (the two scripts share
`get_search_url` and `get_paginated_urls` verbatim).  Python values that may
be `None` are modelled as `Option`; Python exceptions (`NameError`,
`IndexError`, `AttributeError`, `KeyError`, `TypeError`) are modelled by the
`Except PyError` monad; BeautifulSoup documents are modelled by a small HTML
node tree together with `find` / `find_all` traversals in document order.
-/

namespace AptHunter

/-- The Python exceptions that the embedded code can raise. -/
inductive PyError where
  | nameError      -- evaluating an unbound name such as `_`
  | indexError     -- `"{0}{1}".format(...)` with too few arguments
  | attributeError -- attribute access on `None`
  | keyError       -- `dict[key]` with a missing key
  | typeError      -- subscripting `None`, `requests.get(None)`, ...
  deriving DecidableEq, Repr

/-- Python truthiness of an optional string: `None` and `""` are falsy. -/
def truthy : Option String → Bool
  | none => false
  | some s => s ≠ ""

/-- How Python's `str.format` renders an optional-string argument:
`None` prints as `"None"`. -/
def pyStr : Option String → String
  | none => "None"
  | some s => s

/-- Embedding of Python's `city.replace(" ", "-")`: the pattern and the
replacement are single characters, so the call replaces every space
character with a hyphen. -/
def replaceSpaces (s : String) : String :=
  ⟨s.data.map fun c => if c = ' ' then '-' else c⟩

/-! ## URL Builder (`get_search_url`, apt_hunter.py lines 7-61)

The function computes the `price_range` and `rooms` local variables and
concatenates `domain + location + rooms + price_range`.  We embed the two
local computations as `price_segment` and `rooms_segment`. -/

/-- Embedding of apt_hunter.py lines 25-35: the `price_range` local variable.

```
price_range = "{0}-{1}/"
if min_price:
    price_range = price_range.format(min_price + '-to', max_price)
elif max_price is None and min_price:
    price_range = price_range.format("over", min_price)
else:
    price_range = price_range.format("under", max_price)
```

Note the `elif` guard re-tests `min_price` after the `if` already found it
falsy, so the `"over"` branch is unreachable; it is kept here verbatim. -/
def price_segment (min_price max_price : Option String) : String :=
  if truthy min_price then
    (pyStr min_price ++ "-to") ++ "-" ++ pyStr max_price ++ "/"
  else if max_price = none ∧ truthy min_price then
    "over" ++ "-" ++ pyStr min_price ++ "/"
  else
    "under" ++ "-" ++ pyStr max_price ++ "/"

/-- Embedding of apt_hunter.py lines 37-58: the `rooms` local variable.

```
rooms = "{0}{1}"
if beds and baths:
    if beds == "studios":
        rooms = rooms.format(beds + "-", baths + "-bathrooms-")
    else:
        rooms = rooms.format(beds + "-bedrooms-", baths + "-bathrooms-")
elif beds is None:
    if baths:
        rooms = rooms.format(_, baths + "-bathrooms-")
    else:
        rooms = rooms.format()
else:
    if beds == "studios":
        rooms = rooms.format(beds + "-")
    else:
        rooms = rooms.format(beds + "-bedrooms-")
```

`_` is an unbound name, so the `beds is None and baths` branch raises
`NameError`; a `"{0}{1}"` format with fewer than two arguments raises
`IndexError`. -/
def rooms_segment (beds baths : Option String) : Except PyError String :=
  if truthy beds ∧ truthy baths then
    if beds = some "studios" then
      .ok ((pyStr beds ++ "-") ++ (pyStr baths ++ "-bathrooms-"))
    else
      .ok ((pyStr beds ++ "-bedrooms-") ++ (pyStr baths ++ "-bathrooms-"))
  else if beds = none then
    if truthy baths then
      .error .nameError
    else
      .error .indexError
  else
    if beds = some "studios" then
      .error .indexError
    else
      .error .indexError

/-- Embedding of `get_search_url` (apt_hunter.py lines 7-61, identical to
apt_bot.py lines 5-59): `domain + location + rooms + price_range`, where
`location = city.replace(" ", "-") + "-" + state + "-" + zip_code + "/"`.
The rooms computation is the only one that can raise. -/
def get_search_url (city state zip_code : String)
    (beds baths min_price max_price : Option String) : Except PyError String :=
  let city_fmt := replaceSpaces city
  let domain := "https://www.apartments.com/"
  let location := city_fmt ++ "-" ++ state ++ "-" ++ zip_code ++ "/"
  let price_range := price_segment min_price max_price
  match rooms_segment beds baths with
  | .error e => .error e
  | .ok rooms => .ok (domain ++ location ++ rooms ++ price_range)

/-! ## HTML document model

BeautifulSoup documents are modelled as node trees.  `classes` models the
multi-valued `class` attribute (`tag.get('class')` returns `None` exactly
when the attribute is absent, modelled here by the empty list); `attrs`
models the remaining attributes (`tag.get(k)` returns `None` for a missing
key, modelled by `Option`); `text` models the rendering
`tag.get_text(' ', strip=True)` of the element. -/

inductive Node where
  | mk (tag : String) (classes : List String)
       (attrs : List (String × String)) (text : String) (children : List Node)
  deriving Repr

def Node.tag : Node → String
  | .mk t _ _ _ _ => t

def Node.classes : Node → List String
  | .mk _ cs _ _ _ => cs

def Node.attrGet : Node → String → Option String
  | .mk _ _ attrs _ _, k => (attrs.find? fun p => p.1 = k).map Prod.snd

def Node.text : Node → String
  | .mk _ _ _ x _ => x

def Node.children : Node → List Node
  | .mk _ _ _ _ cs => cs

mutual
/-- `n.find_all(p)`: every strict descendant of `n` satisfying `p`, in
document (preorder) order — BeautifulSoup's `find_all` with a predicate. -/
def Node.findAll (p : Node → Bool) : Node → List Node
  | .mk _ _ _ _ children => findAllList p children

def findAllList (p : Node → Bool) : List Node → List Node
  | [] => []
  | n :: rest =>
      (if p n then [n] else []) ++ Node.findAll p n ++ findAllList p rest
end

/-- `n.find(p)`: the first descendant matching `p` in document order, or
`None` — BeautifulSoup's `find`. -/
def Node.find (p : Node → Bool) (n : Node) : Option Node :=
  (n.findAll p).head?

/-- Matcher for `find(tag, class_=cls)`: the tag name matches and `cls` is
one of the element's CSS classes. -/
def hasTagClass (tag cls : String) (n : Node) : Bool :=
  n.tag = tag && n.classes.contains cls

/-- Matcher for `find('a', class_=re.compile("placardTitle js-placardTitle"))`
(apt_hunter.py line 138).  The pattern has no special regex characters, and
BeautifulSoup falls back to matching a multi-valued `class` attribute
re-joined with spaces, so the match is `re.search` of the literal pattern in
the space-joined class string. -/
def isPlacardAnchor (n : Node) : Bool :=
  n.tag = "a" &&
    (List.range ((" ".intercalate n.classes).length + 1)).any fun i =>
      "placardTitle js-placardTitle".data.isPrefixOf
        ((" ".intercalate n.classes).data.drop i)

/-! ## Pagination Walker (`get_paginated_urls`, apt_hunter.py lines 75-95)

```
try:
    if soup.find('div', class_="paging"):
        url = soup.find('a', class_='next').get('href')
        new_soup = get_soup(url)
        urls.append(url)
        return get_paginated_urls(new_soup, urls)
    else:
        raise ValueError
except ValueError:
    return urls
```

The network is abstracted by `fetch : String → Node` standing for
`get_soup`.  The Python recursion is unbounded, so the embedding takes a
fuel argument and returns `none` when the fuel runs out: a run of the
Python function terminates (normally or with an uncaught exception) if and
only if some fuel value makes the embedding return `some _`.  A missing
`next` anchor raises `AttributeError` (`None.get('href')`) which the
`except ValueError` handler does not catch; `requests.get(None)` on a
missing `href` raises as well, modelled as `typeError`. -/
def get_paginated_urls (fetch : String → Node) :
    Nat → Node → List String → Option (Except PyError (List String))
  | 0, _, _ => none
  | fuel + 1, soup, urls =>
    if (soup.find (hasTagClass "div" "paging")).isSome then
      match soup.find (hasTagClass "a" "next") with
      | none => some (.error .attributeError)
      | some a =>
        match a.attrGet "href" with
        | none => some (.error .typeError)
        | some url => get_paginated_urls fetch fuel (fetch url) (urls ++ [url])
    else
      some (.ok urls)

/-! ## Listing Extractor (`get_apartment_urls`, apt_hunter.py lines 122-143)

```
apartment_urls = []
for result in div_apartments_list:
    for div in result:
        try:
            apartment_urls.append(
                div.find('a', class_=re.compile(a_class_regex)).get('href'))
        except AttributeError:
            pass
return apartment_urls
```

When `div.find` returns `None`, `.get('href')` raises `AttributeError`,
which is caught and the entry skipped; when the anchor exists, `.get` never
raises and yields the `href` value or `None`. -/
def get_apartment_urls (div_apartments_list : List (List Node)) :
    List (Option String) :=
  div_apartments_list.foldl
    (fun acc result =>
      result.foldl
        (fun acc div =>
          match div.find isPlacardAnchor with
          | none => acc
          | some a => acc ++ [a.attrGet "href"])
        acc)
    []

/-! ## Unit dictionaries

Python `dict`s with string keys and values, modelled as association lists
with first-match lookup.  Python dictionaries have unique keys, under which
updating the first match coincides with the dictionary update; assignment
to an existing key keeps its position, assignment to a fresh key appends. -/

/-- A unit record: the Python dictionary built per availability-table row. -/
abbrev Dict := List (String × String)

/-- `d[k]` as an optional lookup (first matching entry). -/
def dictGet? : Dict → String → Option String
  | [], _ => none
  | (k0, v0) :: rest, k => if k0 = k then some v0 else dictGet? rest k

/-- `d[k] = v`: update the first entry with key `k` in place, or append
`(k, v)` when the key is absent. -/
def dictSet : Dict → String → String → Dict
  | [], k, v => [(k, v)]
  | (k0, v0) :: rest, k, v =>
    if k0 = k then (k0, v) :: rest else (k0, v0) :: dictSet rest k v

/-! ## Unit Scraper (`get_availability`, apt_hunter.py lines 157-181)

```
units = []
soup = get_soup(apartment_url)
availability = soup.find('section', class_="availabilitySection")
for row in availability.find_all('tr', class_="rentalGridRow"):
    unit_dict = {
        col.get('class')[0]: col.get_text(' ', strip=True)
        for col in row.find_all('td')
    }
    unit_dict.update({'address': address, 'url': apartment_url})
    units.append(unit_dict)
return units
```

When the availability section is absent, `soup.find` returns `None` and the
unguarded `availability.find_all` raises `AttributeError`.  Inside the dict
comprehension, a `td` with no `class` attribute makes `col.get('class')[0]`
subscript `None`, raising `TypeError`. -/

/-- The dict comprehension over a row's `td` cells (later duplicate keys
overwrite earlier ones, as in a Python comprehension). -/
def row_dict : List Node → Dict → Except PyError Dict
  | [], d => .ok d
  | col :: rest, d =>
    match col.classes with
    | [] => .error .typeError
    | c :: _ => row_dict rest (dictSet d c col.text)

/-- One loop iteration: build the row's dict and attach address and url. -/
def unit_of_row (apartment_url address : String) (row : Node) :
    Except PyError Dict :=
  match row_dict (row.findAll fun n => n.tag = "td") [] with
  | .error e => .error e
  | .ok d => .ok (dictSet (dictSet d "address" address) "url" apartment_url)

def units_of_rows (apartment_url address : String) :
    List Node → Except PyError (List Dict)
  | [] => .ok []
  | row :: rest =>
    match unit_of_row apartment_url address row with
    | .error e => .error e
    | .ok u =>
      match units_of_rows apartment_url address rest with
      | .error e => .error e
      | .ok us => .ok (u :: us)

/-- Embedding of `get_availability` itself (the network abstracted by
`fetch`, standing for `get_soup`). -/
def get_availability (fetch : String → Node) (apartment_url address : String) :
    Except PyError (List Dict) :=
  let soup := fetch apartment_url
  match soup.find (hasTagClass "section" "availabilitySection") with
  | none => .error .attributeError
  | some availability =>
      units_of_rows apartment_url address
        (availability.findAll (hasTagClass "tr" "rentalGridRow"))

/-! ## Record Normalizer (`process_availability`, apt_hunter.py lines 183-196)

```
for unit in units:
    unit['beds'] = unit['beds'][:1]
    unit['baths'] = unit['baths'][:1]
return units
```

`unit['beds']` on a dict without the key raises `KeyError`; the slice
`s[:1]` keeps the first character (or yields `""`) and never fails.  The
in-place mutation is modelled by returning the updated list. -/

/-- Python's slice `s[:1]`. -/
def pySlice1 (s : String) : String := ⟨s.data.take 1⟩

def process_unit (unit : Dict) : Except PyError Dict :=
  match dictGet? unit "beds" with
  | none => .error .keyError
  | some b =>
    let unit := dictSet unit "beds" (pySlice1 b)
    match dictGet? unit "baths" with
    | none => .error .keyError
    | some a => .ok (dictSet unit "baths" (pySlice1 a))

def process_availability : List Dict → Except PyError (List Dict)
  | [] => .ok []
  | unit :: rest =>
    match process_unit unit with
    | .error e => .error e
    | .ok u =>
      match process_availability rest with
      | .error e => .error e
      | .ok us => .ok (u :: us)

/-! ## Concrete fixtures used by counterexamples and witnesses -/

/-- Substring containment on strings, executable (`re.search` of a literal
pattern succeeds iff the pattern is a substring). -/
def strContains (hay needle : String) : Bool :=
  (List.range (hay.length + 1)).any fun i =>
    needle.data.isPrefixOf (hay.data.drop i)

/-- A fetched page with no elements at all: no paging container, no
availability section. -/
def bareDoc : Node := .mk "html" [] [] "" []

/-- A results page whose paging container exists and whose "next" link's
`href` fetches back to this very page: a one-step pagination cycle. -/
def cyclicPage : Node :=
  .mk "html" [] [] ""
    [.mk "div" ["paging"] [] "" [],
     .mk "a" ["next"] [("href", "https://www.apartments.com/search/2/")] "" []]

/-- The network world of the cycle: every URL serves `cyclicPage`. -/
def cyclicFetch : String → Node := fun _ => cyclicPage

/-- A one-record unit list with both beds and baths fields present. -/
def sampleUnits : List Dict :=
  [[("beds", "2 Beds"), ("baths", "2 Baths"), ("sqft", "900 Sq Ft"),
    ("rent", "$2,000"), ("leaseLength", "12 Months"),
    ("address", "123 Main St"), ("url", "https://www.apartments.com/x/")]]

/-- The normalization of `sampleUnits`. -/
def sampleUnitsNormalized : List Dict :=
  [[("beds", "2"), ("baths", "2"), ("sqft", "900 Sq Ft"),
    ("rent", "$2,000"), ("leaseLength", "12 Months"),
    ("address", "123 Main St"), ("url", "https://www.apartments.com/x/")]]

/-! ## Dictionary lemmas -/

theorem dictGet?_dictSet_self (d : Dict) (k v : String) :
    dictGet? (dictSet d k v) k = some v := by
  induction d with
  | nil => simp [dictSet, dictGet?]
  | cons p rest ih =>
    obtain ⟨k0, v0⟩ := p
    by_cases h : k0 = k
    · simp [dictSet, h, dictGet?]
    · simp [dictSet, h, dictGet?, ih]

theorem dictGet?_dictSet_ne (d : Dict) (k k' v : String) (h : k' ≠ k) :
    dictGet? (dictSet d k v) k' = dictGet? d k' := by
  induction d with
  | nil => simp [dictSet, dictGet?, Ne.symm h]
  | cons p rest ih =>
    obtain ⟨k0, v0⟩ := p
    by_cases h0 : k0 = k
    · subst h0
      simp [dictSet, dictGet?, Ne.symm h]
    · simp [dictSet, h0, dictGet?, ih]

theorem dictSet_of_get (d : Dict) (k v : String) (h : dictGet? d k = some v) :
    dictSet d k v = d := by
  induction d with
  | nil => simp [dictGet?] at h
  | cons p rest ih =>
    obtain ⟨k0, v0⟩ := p
    by_cases h0 : k0 = k
    · simp [dictGet?, h0] at h
      simp [dictSet, h0, h]
    · simp [dictGet?, h0] at h
      simp [dictSet, h0, ih h]

theorem pySlice1_idem (s : String) : pySlice1 (pySlice1 s) = pySlice1 s := by
  simp [pySlice1, List.take_take]

/-! ## Record Normalizer lemmas -/

theorem process_unit_ok (u : Dict) (b a : String)
    (hb : dictGet? u "beds" = some b)
    (ha : dictGet? u "baths" = some a) :
    process_unit u
      = .ok (dictSet (dictSet u "beds" (pySlice1 b)) "baths" (pySlice1 a)) := by
  have ha' : dictGet? (dictSet u "beds" (pySlice1 b)) "baths" = some a := by
    rw [dictGet?_dictSet_ne _ _ _ _ (by decide)]; exact ha
  simp [process_unit, hb, ha']

theorem process_unit_fix (u d : Dict) (h : process_unit u = .ok d) :
    process_unit d = .ok d := by
  rcases hb : dictGet? u "beds" with _ | b
  · simp [process_unit, hb] at h
  · rcases ha : dictGet? (dictSet u "beds" (pySlice1 b)) "baths" with _ | a
    · simp [process_unit, hb, ha] at h
    · simp [process_unit, hb, ha] at h
      subst h
      have hdb : dictGet?
          (dictSet (dictSet u "beds" (pySlice1 b)) "baths" (pySlice1 a)) "beds"
          = some (pySlice1 b) := by
        rw [dictGet?_dictSet_ne _ _ _ _ (by decide), dictGet?_dictSet_self]
      have hda : dictGet?
          (dictSet (dictSet u "beds" (pySlice1 b)) "baths" (pySlice1 a)) "baths"
          = some (pySlice1 a) := dictGet?_dictSet_self _ _ _
      rw [process_unit_ok _ _ _ hdb hda, pySlice1_idem, pySlice1_idem,
        dictSet_of_get _ _ _ hdb, dictSet_of_get _ _ _ hda]

theorem process_unit_frame (u d : Dict) (h : process_unit u = .ok d)
    (k : String) (hk1 : k ≠ "beds") (hk2 : k ≠ "baths") :
    dictGet? d k = dictGet? u k := by
  rcases hb : dictGet? u "beds" with _ | b
  · simp [process_unit, hb] at h
  · rcases ha : dictGet? (dictSet u "beds" (pySlice1 b)) "baths" with _ | a
    · simp [process_unit, hb, ha] at h
    · simp [process_unit, hb, ha] at h
      subst h
      rw [dictGet?_dictSet_ne _ _ _ _ hk2, dictGet?_dictSet_ne _ _ _ _ hk1]

theorem process_unit_isOk (u : Dict)
    (hb : (dictGet? u "beds").isSome) (ha : (dictGet? u "baths").isSome) :
    ∃ d, process_unit u = .ok d := by
  rcases hbeq : dictGet? u "beds" with _ | b
  · rw [hbeq] at hb; simp at hb
  · rcases haeq : dictGet? u "baths" with _ | a
    · rw [haeq] at ha; simp at ha
    · exact ⟨_, process_unit_ok u b a hbeq haeq⟩

theorem process_availability_ok (units : List Dict)
    (hall : ∀ u ∈ units,
      (dictGet? u "beds").isSome ∧ (dictGet? u "baths").isSome) :
    ∃ r, process_availability units = .ok r := by
  induction units with
  | nil => exact ⟨[], rfl⟩
  | cons u rest ih =>
    obtain ⟨d, hd⟩ :=
      process_unit_isOk u (hall u (by simp)).1 (hall u (by simp)).2
    obtain ⟨r, hr⟩ := ih fun x hx => hall x (by simp [hx])
    exact ⟨d :: r, by simp [process_availability, hd, hr]⟩

theorem process_availability_fix (units r : List Dict)
    (h : process_availability units = .ok r) :
    process_availability r = .ok r := by
  induction units generalizing r with
  | nil =>
    simp [process_availability] at h
    subst h; rfl
  | cons u rest ih =>
    rcases hu : process_unit u with e | d
    · simp [process_availability, hu] at h
    · rcases hrest : process_availability rest with e | ds
      · simp [process_availability, hu, hrest] at h
      · simp [process_availability, hu, hrest] at h
        subst h
        simp [process_availability, process_unit_fix u d hu, ih ds hrest]

theorem process_availability_forall₂ (units r : List Dict)
    (h : process_availability units = .ok r) :
    List.Forall₂ (fun u d => ∀ k, k ≠ "beds" → k ≠ "baths" →
      dictGet? d k = dictGet? u k) units r := by
  induction units generalizing r with
  | nil =>
    simp [process_availability] at h
    subst h; exact .nil
  | cons u rest ih =>
    rcases hu : process_unit u with e | d
    · simp [process_availability, hu] at h
    · rcases hrest : process_availability rest with e | ds
      · simp [process_availability, hu, hrest] at h
      · simp [process_availability, hu, hrest] at h
        subst h
        exact .cons (process_unit_frame u d hu) (ih ds hrest)

/-! ## Listing Extractor lemmas -/

theorem extract_inner_foldl (result : List Node) (acc : List (Option String)) :
    result.foldl
      (fun acc div =>
        match div.find isPlacardAnchor with
        | none => acc
        | some a => acc ++ [a.attrGet "href"])
      acc
    = acc ++ result.filterMap fun div =>
        (div.find isPlacardAnchor).map fun a => a.attrGet "href" := by
  induction result generalizing acc with
  | nil => simp
  | cons div rest ih =>
    rcases hfind : div.find isPlacardAnchor with _ | a
    · simp [List.foldl, hfind, ih, List.filterMap_cons]
    · simp [List.foldl, hfind, ih, List.filterMap_cons]

theorem extract_outer_foldl (l : List (List Node)) (acc : List (Option String)) :
    l.foldl
      (fun acc result =>
        result.foldl
          (fun acc div =>
            match div.find isPlacardAnchor with
            | none => acc
            | some a => acc ++ [a.attrGet "href"])
          acc)
      acc
    = acc ++ l.flatten.filterMap fun div =>
        (div.find isPlacardAnchor).map fun a => a.attrGet "href" := by
  induction l generalizing acc with
  | nil => simp
  | cons result rest ih =>
    rw [List.foldl_cons, extract_inner_foldl, ih, List.flatten_cons,
      List.filterMap_append, List.append_assoc]

/-! ## Claim theorems -/

/-- Claim C1. The claim says that with exactly one of min/max price set the
price segment is "under-(max)/" or "over-(min)/" and never any other form.
The max-only half holds, but when only the minimum is set the first branch
of the Python conditional (`if min_price:`) fires and renders
"(min)-to-None/"; the `elif` that would render "over-(min)/" re-tests
`min_price` after the `if` already found it falsy and is therefore dead
code.  This theorem evaluates the embedded price segment at the failing
input min = "1000", max absent. -/
theorem C1_min_only_price_misrendered :
    price_segment (some "1000") none = "1000-to-None/"
      ∧ price_segment (some "1000") none ≠ "over-1000/"
      ∧ price_segment none (some "2500") = "under-2500/" :=
  ⟨rfl, by decide, rfl⟩

/-- Claim C2. The claim says the Pagination Walker terminates on a document
whose "next" link points to an already-visited URL.  The source tracks no
visited set: on `cyclicPage`, whose "next" link fetches back to the same
document, the embedded walker exhausts every fuel bound — no amount of fuel
makes the recursion return, i.e. the Python function recurses forever. -/
theorem C2_pagination_cycle_diverges (fuel : Nat) (urls : List String) :
    get_paginated_urls cyclicFetch fuel cyclicPage urls = none := by
  induction fuel generalizing urls with
  | zero => rfl
  | succ k ih => exact ih (urls ++ ["https://www.apartments.com/search/2/"])

/-- Claim C3. The claim says that with beds absent and baths given the URL
Builder returns a well-formed URL whose rooms segment is
"(baths)-bathrooms-".  In the source this case executes
`rooms.format(_, baths + "-bathrooms-")` where `_` is an unbound name, so
the call raises `NameError` instead of returning a URL.  This theorem
evaluates the embedded builder at such an input. -/
theorem C3_beds_absent_baths_given_raises :
    get_search_url "los angeles" "ca" "90034" none (some "2") none (some "2500")
      = .error .nameError := rfl

/-- Claim C4. The claim says a listing page without an availability section
yields an empty unit set rather than an error.  In the source
`soup.find('section', class_="availabilitySection")` returns `None` and the
unguarded `availability.find_all(...)` raises `AttributeError`: whenever
the fetched page has no availability section, the embedded scraper returns
the `AttributeError` outcome, never an empty list. -/
theorem C4_missing_availability_raises (fetch : String → Node)
    (apartment_url address : String)
    (h : (fetch apartment_url).find (hasTagClass "section" "availabilitySection")
      = none) :
    get_availability fetch apartment_url address = .error .attributeError := by
  simp [get_availability, h]

/-- Witness for C4: a concrete world where every URL serves an element-free
page, at which the hypothesis holds by computation. -/
theorem C4_missing_availability_raises_witness :
    ((fun _ : String => bareDoc) "https://www.apartments.com/x/").find
        (hasTagClass "section" "availabilitySection") = none
      ∧ get_availability (fun _ => bareDoc) "https://www.apartments.com/x/"
          "123 Main St" = .error .attributeError :=
  ⟨rfl, C4_missing_availability_raises _ _ _ rfl⟩

/-- Counterexample to claim C5 as stated: on a unit record without a beds
field, `unit['beds']` raises `KeyError`, so normalization does not return a
result for every list of unit records. -/
theorem C5_missing_beds_field_raises :
    process_availability [[("sqft", "900 Sq Ft")]] = .error .keyError := rfl

/-- Claim C5, amended: the Record Normalizer never fails on every list of
unit records in which each record carries both the beds and the baths
field (records missing either field instead raise `KeyError`). -/
theorem C5_total_on_records_with_fields (units : List Dict)
    (hall : ∀ u ∈ units,
      (dictGet? u "beds").isSome ∧ (dictGet? u "baths").isSome) :
    ∃ r, process_availability units = .ok r :=
  process_availability_ok units hall

/-- Witness for the amended C5 at a concrete one-record list. -/
theorem C5_total_on_records_with_fields_witness :
    (∀ u ∈ sampleUnits,
      (dictGet? u "beds").isSome ∧ (dictGet? u "baths").isSome)
      ∧ ∃ r, process_availability sampleUnits = .ok r :=
  ⟨by decide, C5_total_on_records_with_fields sampleUnits (by decide)⟩

/-- Claim C6. The query city "los angeles", state "ca", zip "90034",
beds "2", baths "2", min price absent, max price "2500" builds exactly the
URL `https://www.apartments.com/los-angeles-ca-90034/2-bedrooms-2-bathrooms-under-2500/`. -/
theorem C6_end_to_end_url :
    get_search_url "los angeles" "ca" "90034" (some "2") (some "2") none
        (some "2500")
      = .ok "https://www.apartments.com/los-angeles-ca-90034/2-bedrooms-2-bathrooms-under-2500/" :=
  rfl

/-- Counterexample to claim C7 as stated: with beds = "studios" the rooms
segment is "(beds)-(baths)-bathrooms-", but nothing stops the baths text
itself from containing "-bedrooms-", in which case the segment does contain
"-bedrooms-" even though the builder never appended it. -/
theorem C7_baths_text_injects_bedrooms :
    rooms_segment (some "studios") (some "-bedrooms-")
        = .ok "studios--bedrooms--bathrooms-"
      ∧ strContains "studios--bedrooms--bathrooms-" "-bedrooms-" = true :=
  ⟨rfl, rfl⟩

/-- Claim C7, amended: for every SearchQuery with beds = "studios" and a
set (non-empty) baths text, the rooms segment is exactly
"studios-(baths)-bathrooms-" — the "-bedrooms-" suffix is not appended to
the beds text, so the segment contains "-bedrooms-" only when the baths
text itself brings it along. -/
theorem C7_studios_rooms_segment (b : String) (h : b ≠ "") :
    rooms_segment (some "studios") (some b)
      = .ok ("studios-" ++ (b ++ "-bathrooms-")) := by
  simp [rooms_segment, truthy, pyStr, h]

/-- Witness for the amended C7 at baths = "2". -/
theorem C7_studios_rooms_segment_witness :
    ("2" ≠ "") ∧ rooms_segment (some "studios") (some "2")
      = .ok ("studios-" ++ ("2" ++ "-bathrooms-")) :=
  ⟨by decide, C7_studios_rooms_segment "2" (by decide)⟩

/-- Claim C8. For every list of results-page entry collections, the Listing
Extractor equals the filter-map that drops exactly the entries without a
matching listing-title anchor and keeps the href of every remaining entry in
the original order: a missing anchor is skipped (the caught
`AttributeError`), never aborts the extraction, and the function is total. -/
theorem C8_extractor_skips_missing_anchors (l : List (List Node)) :
    get_apartment_urls l
      = l.flatten.filterMap fun div =>
          (div.find isPlacardAnchor).map fun a => a.attrGet "href" := by
  have := extract_outer_foldl l []
  simpa [get_apartment_urls] using this

/-- Claim C9. The Record Normalizer is idempotent: on every list of unit
records carrying beds and baths fields it succeeds with a result that is a
fixed point — normalizing a second time returns the very same records, so
in particular the same beds and baths values. -/
theorem C9_normalizer_idempotent (units : List Dict)
    (hall : ∀ u ∈ units,
      (dictGet? u "beds").isSome ∧ (dictGet? u "baths").isSome) :
    ∃ r, process_availability units = .ok r ∧ process_availability r = .ok r := by
  obtain ⟨r, hr⟩ := process_availability_ok units hall
  exact ⟨r, hr, process_availability_fix units r hr⟩

/-- Witness for C9 at a concrete one-record list. -/
theorem C9_normalizer_idempotent_witness :
    (∀ u ∈ sampleUnits,
      (dictGet? u "beds").isSome ∧ (dictGet? u "baths").isSome)
      ∧ ∃ r, process_availability sampleUnits = .ok r
          ∧ process_availability r = .ok r :=
  ⟨by decide, C9_normalizer_idempotent sampleUnits (by decide)⟩

/-- Claim C10. Frame property of the Record Normalizer: whenever it returns
a result, the result has the same length as the input, the records
correspond pointwise in order, and every field other than beds and baths
(sqft, rent, lease length, address, url, and any other key) has the same
value in the output record as in the input record. -/
theorem C10_normalizer_frame (units r : List Dict)
    (h : process_availability units = .ok r) :
    r.length = units.length
      ∧ List.Forall₂ (fun u d => ∀ k, k ≠ "beds" → k ≠ "baths" →
          dictGet? d k = dictGet? u k) units r := by
  have h2 := process_availability_forall₂ units r h
  exact ⟨h2.length_eq.symm, h2⟩

/-- Witness for C10: the sample unit list normalizes to
`sampleUnitsNormalized` and the frame property holds there. -/
theorem C10_normalizer_frame_witness :
    process_availability sampleUnits = .ok sampleUnitsNormalized
      ∧ (sampleUnitsNormalized.length = sampleUnits.length
        ∧ List.Forall₂ (fun u d => ∀ k, k ≠ "beds" → k ≠ "baths" →
            dictGet? d k = dictGet? u k) sampleUnits sampleUnitsNormalized) :=
  ⟨rfl, C10_normalizer_frame sampleUnits sampleUnitsNormalized rfl⟩

end AptHunter
